import Mathlib

/-
Verification of the chat-moderation bot in src/app.py against its design
specification. The Python module is shallowly embedded below: pure helpers
become Lean functions, the side-effecting handlers become functions that
return the list of platform calls they attempt together with a flag telling
whether an exception escapes the handler, and injected faults (a platform
call raising) are explicit boolean parameters.
-/

namespace CryptoSwapBot

/-- `chPrefix pat l` is true iff `pat` is a prefix of `l`. -/
def chPrefix : List Char → List Char → Bool
  | [], _ => true
  | _ :: _, [] => false
  | a :: asTail, b :: bs => a == b && chPrefix asTail bs

/-- `chInfix pat l` is true iff `pat` occurs contiguously in `l`. -/
def chInfix (pat : List Char) : List Char → Bool
  | [] => pat.isEmpty
  | b :: bs => chPrefix pat (b :: bs) || chInfix pat bs

/-- Python substring test `pat in s` on strings: `pat` occurs contiguously in
`s`. -/
def strIn (pat s : String) : Bool :=
  chInfix pat.data s.data

/-- Python `str.lower()` on the ASCII range (every string handled by the bot's
rules is compared against ASCII phrases; `Char.toLower` lowers exactly the
ASCII uppercase letters). -/
def pyLower (s : String) : String :=
  ⟨s.data.map Char.toLower⟩

/-- The banned-phrase list, src/app.py line 89. -/
def BANNED_KEYWORDS : List String :=
  ["airdrop", "double your", "giveaway", "crypto bonus", "win btc", "claim now"]

/-- Semantic model of `URL_PATTERN.search(text)` where `URL_PATTERN` is the
compiled regular expression for "http", an optional "s", then "://"
(src/app.py line 90). The language of that pattern is exactly the two strings
"http://" and "https://", and it is compiled without the ignore-case flag, so
the search succeeds iff one of the two occurs as a case-sensitive substring
of `text`. Returns `true` iff a match is found. -/
def URL_PATTERN_search (text : String) : Bool :=
  strIn "http://" text || strIn "https://" text

/-- The `is_spam` test computed inside `spam_filter`, src/app.py lines
100-103: a banned keyword occurs in the lowercased text, or the URL pattern
matches the original text. -/
def is_spam (text : String) : Bool :=
  BANNED_KEYWORDS.any (fun word => strIn word (pyLower text)) || URL_PATTERN_search text

/-- The process environment as seen by the module-level code of src/app.py
lines 19-23: each `os.getenv` call yields a string or Python `None`. -/
structure Env where
  bot_token : Option String
  admin_username : Option String
  support_link : Option String
  admin_chat_id : Option String
  webhook_url : Option String
deriving DecidableEq

/-- Surrounding-whitespace removal on a character list (Python `str.strip()`
as performed by `int`). -/
def pyStrip (s : List Char) : List Char :=
  ((s.dropWhile Char.isWhitespace).reverse.dropWhile Char.isWhitespace).reverse

/-- Python `int(s)` on a string: surrounding whitespace is stripped, an
optional sign precedes a nonempty run of digits; anything else raises
ValueError, modelled as `none`. -/
def pyInt? (s : String) : Option Int :=
  let t := pyStrip s.data
  let (sign, digits) : Int × List Char :=
    match t with
    | '+' :: rest => (1, rest)
    | '-' :: rest => (-1, rest)
    | cs => (1, cs)
  if digits.isEmpty || !digits.all Char.isDigit then none
  else some (sign * (digits.foldl (fun a c => a * 10 + (c.toNat - 48)) 0 : Nat))

/-- Exceptions that module initialization can raise: `int(None)` raises
TypeError (line 22), `int("garbage")` raises ValueError (line 22), and
building the bot application with a missing/empty token raises InvalidToken
(line 42, the platform client rejects a falsy token). -/
inductive StartupError where
  | typeError
  | valueError
  | invalidToken
deriving DecidableEq

/-- The process-wide configuration once module initialization succeeded. -/
structure Config where
  botToken : String
  adminUsername : Option String
  supportLink : Option String
  adminChatId : Int
  webhookUrl : Option String
deriving DecidableEq

/-- Module initialization, src/app.py lines 17-42, in source order: the five
`os.getenv` reads never fail; `int(os.getenv("ADMIN_CHAT_ID"))` raises
TypeError when the variable is unset and ValueError when it is not an integer
literal; building the application with `BOT_TOKEN` raises InvalidToken when
the token is `None` or empty. `ADMIN_USERNAME`, `SUPPORT_LINK` and
`WEBHOOK_URL` are only stored, never validated here. Serving (the HTTP
routes) begins only after this returns `.ok`. -/
def startup (env : Env) : Except StartupError Config :=
  match env.admin_chat_id with
  | none => Except.error StartupError.typeError
  | some s =>
    match pyInt? s with
    | none => Except.error StartupError.valueError
    | some adminChatId =>
      match env.bot_token with
      | none => Except.error StartupError.invalidToken
      | some t =>
        if t.isEmpty then Except.error StartupError.invalidToken
        else
          Except.ok
            { botToken := t
              adminUsername := env.admin_username
              supportLink := env.support_link
              adminChatId := adminChatId
              webhookUrl := env.webhook_url }

/-- One button of an inline keyboard: a label and an external link. -/
structure MenuButton where
  label : String
  url : Option String
deriving DecidableEq

/-- Python `s.strip('@')`: remove leading and trailing '@' characters. -/
def stripAt (s : String) : String :=
  ⟨((s.data.dropWhile (fun c => c == '@')).reverse.dropWhile
      (fun c => c == '@')).reverse⟩

/-- Exceptions a handler body can raise. `attributeError` models calling
`.strip` on Python `None`. -/
inductive PyError where
  | attributeError
deriving DecidableEq

/-- The markup value `get_main_keyboard` builds from a (non-`None`) admin
username and the support link: one row of two linked buttons. -/
def mainKb (u : String) (support : Option String) : List (List MenuButton) :=
  [[{ label := "🛠️ Contact Admin", url := some ("https://t.me/" ++ stripAt u) },
    { label := "💬 Support Chat", url := support }]]

/-- `get_main_keyboard`, src/app.py lines 47-54: a single row of two linked
buttons. When `ADMIN_USERNAME` is `None`, evaluating
`ADMIN_USERNAME.strip('@')` raises AttributeError; otherwise the markup is
built unconditionally (the support button stores `SUPPORT_LINK` as-is). -/
def get_main_keyboard (cfg : Config) : Except PyError (List (List MenuButton)) :=
  match cfg.adminUsername with
  | none => Except.error PyError.attributeError
  | some u => Except.ok (mainKb u cfg.supportLink)

/-- A member of `update.message.new_chat_members`. -/
structure Member where
  username : Option String
  first_name : String
deriving DecidableEq

/-- One outbound `reply_text` call: the message text and its reply markup. -/
structure Send where
  text : String
  markup : List (List MenuButton)
deriving DecidableEq

/-- The greeting text sent by `welcome_new_member`, src/app.py line 81. -/
def greetingText (firstName : String) : String :=
  "👋 Welcome " ++ firstName ++ "! Need help or want to contact support?"

/-- `welcome_new_member`, src/app.py lines 76-83: loop over the joined
members in order and reply to each with a personalized greeting and the main
keyboard. `sendOk i` injects a fault into the i-th `reply_text` call (`false`
means the platform call raises). The handler has no try/except: the result is
the list of attempted sends paired with `true` iff an exception escapes the
handler. A send that raises is still an attempted send; building the
keyboard raising (AttributeError) aborts before the send is attempted. -/
def welcomeGo (cfg : Config) (sendOk : Nat → Bool) :
    Nat → List Member → List Send × Bool
  | _, [] => ([], false)
  | i, m :: rest =>
    match get_main_keyboard cfg with
    | Except.error _ => ([], true)
    | Except.ok kb =>
      let s : Send := { text := greetingText m.first_name, markup := kb }
      if sendOk i then
        let (tail, raised) := welcomeGo cfg sendOk (i + 1) rest
        (s :: tail, raised)
      else ([s], true)

/-- See the comment above `welcomeGo`: the handler is the loop started at the
head of the joined-members list. -/
def welcome_new_member (cfg : Config) (members : List Member)
    (sendOk : Nat → Bool) : List Send × Bool :=
  welcomeGo cfg sendOk 0 members

/-- The message object a text handler receives. -/
structure Message where
  text : Option String
  username : Option String
  first_name : String
  chatId : Int
deriving DecidableEq

/-- One platform call attempted by `spam_filter`'s moderation action. -/
inductive ModCall where
  | deleteMsg
  | chatNotice (chatId : Int) (text : String)
  | adminForward (chatId : Int) (text : String)
deriving DecidableEq

/-- Python f-string rendering of a possibly-`None` value: `None` prints as
"None". -/
def pyShow (o : Option String) : String :=
  match o with
  | none => "None"
  | some s => s

/-- Python `a or b` on an optional string against a fallback: `None` and the
empty string are falsy. -/
def pyOrElse (o : Option String) (fallback : String) : String :=
  match o with
  | none => fallback
  | some s => if s.isEmpty then fallback else s

/-- The chat-visible notice text, src/app.py line 111. -/
def noticeText (msg : Message) : String :=
  "🚫 Message removed. @" ++ pyShow msg.username ++
    ", links and promotions aren\x27t allowed."

/-- The admin-forward text, src/app.py line 120. -/
def forwardText (msg : Message) (text : String) : String :=
  "⚠️ Spam Alert from @" ++ pyOrElse msg.username msg.first_name ++ ":\n" ++ text

/-- `spam_filter`, src/app.py lines 92-123: `text = message.text or ""`; when
`is_spam text` holds, a first try-block deletes the message and (only if the
delete did not raise) posts the chat notice, and a second, independent
try-block forwards the text to `ADMIN_CHAT_ID`; both blocks catch every
exception and only log it. `deleteOk`, `noticeOk`, `forwardOk` inject faults
into the three platform calls; a call that raises is still attempted, and the
caught exception changes nothing observable. The result is the list of
attempted calls, paired with `true` iff an exception escapes the handler
(never, because of the two except-clauses). -/
def spam_filter (cfg : Config) (msg : Message)
    (deleteOk noticeOk forwardOk : Bool) : List ModCall × Bool :=
  let text := pyOrElse msg.text ""
  if is_spam text then
    let step1 :=
      if deleteOk then
        [ModCall.deleteMsg, ModCall.chatNotice msg.chatId (noticeText msg)]
      else
        [ModCall.deleteMsg]
    let step2 := [ModCall.adminForward cfg.adminChatId (forwardText msg text)]
    (step1 ++ step2, false)
  else
    ([], false)

/-- A raw platform update as produced by the platform library's JSON parser;
`webhook` only moves it around, never inspects it. -/
structure TgUpdate where
  payload : String
deriving DecidableEq

/-- Failures of `request.get_json(force=True)` / `Update.de_json` on a
malformed request body: the raised BadRequest becomes an HTTP 400 error
response at the Flask layer. -/
inductive ParseError where
  | badRequest
deriving DecidableEq

/-- The application's pending-update queue (`bot_app.update_queue`). -/
structure QueueState where
  pending : List TgUpdate
deriving DecidableEq

/-- The `/webhook` route body, src/app.py lines 138-143: parse the request
body (an exception from the parser propagates out of the route), enqueue the
parsed update with `put_nowait` (the queue is unbounded, so this never
fails), and return the string "ok". No handler runs here: the update is only
enqueued for the event loop. -/
def webhook (body : Except ParseError TgUpdate) (q : QueueState) :
    Except ParseError (QueueState × String) := do
  let update ← body
  Except.ok ({ pending := q.pending ++ [update] }, "ok")

/-- The HTTP response Flask produces for the `/webhook` route: a plain-string
return becomes status 200 with that body; an uncaught BadRequest from the
route body becomes a 400 error page, not the acknowledgement. The returned
triple is (status, body, queue after the request). -/
def webhookResponse (body : Except ParseError TgUpdate) (q : QueueState) :
    Nat × String × QueueState :=
  match webhook body q with
  | Except.error _ => (400, "Bad Request", q)
  | Except.ok (q2, s) => (200, s, q2)

end CryptoSwapBot

namespace CryptoSwapBot

/-- C1: every message text containing a phrase of the fixed banned set as a
case-insensitive substring (i.e. the phrase occurs in the lowercased text) is
classified as spam. -/
theorem spec_c1_banned_phrase_is_spam (text word : String)
    (hmem : word ∈ BANNED_KEYWORDS)
    (hsub : strIn word (pyLower text) = true) :
    is_spam text = true := by
  unfold is_spam
  rw [Bool.or_eq_true, List.any_eq_true]
  exact Or.inl ⟨word, hmem, hsub⟩

/-- Witness for C1 at the concrete text "Join our GIVEAWAY now!!". -/
theorem spec_c1_banned_phrase_is_spam_witness :
    ("giveaway" ∈ BANNED_KEYWORDS ∧
      strIn "giveaway" (pyLower "Join our GIVEAWAY now!!") = true) ∧
    is_spam "Join our GIVEAWAY now!!" = true :=
  ⟨⟨by decide, by decide⟩,
    spec_c1_banned_phrase_is_spam "Join our GIVEAWAY now!!" "giveaway"
      (by decide) (by decide)⟩

/-- C2: every message text containing "http://" or "https://" as a substring
is classified as spam, with no hypothesis about banned phrases. -/
theorem spec_c2_url_is_spam (text : String)
    (h : strIn "http://" text = true ∨ strIn "https://" text = true) :
    is_spam text = true := by
  unfold is_spam URL_PATTERN_search
  rcases h with h | h <;> simp [h]

/-- Witness for C2 at the concrete text "check this out https://example.com",
which contains no banned phrase. -/
theorem spec_c2_url_is_spam_witness :
    (strIn "http://" "check this out https://example.com" = true ∨
      strIn "https://" "check this out https://example.com" = true) ∧
    is_spam "check this out https://example.com" = true :=
  ⟨Or.inr (by decide),
    spec_c2_url_is_spam "check this out https://example.com" (Or.inr (by decide))⟩

/-- C10: URL detection is case-sensitive while keyword detection is not: a
text that contains an upper- or mixed-case scheme prefix such as "HTTP://"
or "Https://" but neither lowercase scheme string nor any banned phrase is
classified as not spam, because the regex runs on the original text. -/
theorem spec_c10_uppercase_scheme_not_spam (text : String)
    (hcase : strIn "HTTP://" text = true ∨ strIn "Https://" text = true)
    (h1 : strIn "http://" text = false)
    (h2 : strIn "https://" text = false)
    (hk : ∀ w ∈ BANNED_KEYWORDS, strIn w (pyLower text) = false) :
    is_spam text = false := by
  unfold is_spam URL_PATTERN_search
  rw [Bool.or_eq_false_iff, Bool.or_eq_false_iff, List.any_eq_false]
  exact ⟨fun w hw => by simp [hk w hw], h1, h2⟩

/-- Witness for C10 at the concrete text "HTTP://EXAMPLE.COM". -/
theorem spec_c10_uppercase_scheme_not_spam_witness :
    ((strIn "HTTP://" "HTTP://EXAMPLE.COM" = true ∨
        strIn "Https://" "HTTP://EXAMPLE.COM" = true) ∧
      strIn "http://" "HTTP://EXAMPLE.COM" = false ∧
      strIn "https://" "HTTP://EXAMPLE.COM" = false ∧
      (∀ w ∈ BANNED_KEYWORDS, strIn w (pyLower "HTTP://EXAMPLE.COM") = false)) ∧
    is_spam "HTTP://EXAMPLE.COM" = false :=
  ⟨⟨Or.inl (by decide), by decide, by decide, by decide⟩,
    spec_c10_uppercase_scheme_not_spam "HTTP://EXAMPLE.COM"
      (Or.inl (by decide)) (by decide) (by decide) (by decide)⟩

/-- Shared helper: the spam test is false when no banned keyword occurs in
the lowercased text and neither scheme string occurs in the original text. -/
theorem is_spam_eq_false (text : String)
    (hk : ∀ w ∈ BANNED_KEYWORDS, strIn w (pyLower text) = false)
    (h1 : strIn "http://" text = false)
    (h2 : strIn "https://" text = false) :
    is_spam text = false := by
  unfold is_spam URL_PATTERN_search
  rw [Bool.or_eq_false_iff, Bool.or_eq_false_iff, List.any_eq_false]
  exact ⟨fun w hw => by simp [hk w hw], h1, h2⟩

/-- C3: a message whose effective text contains neither a banned phrase
(case-insensitively) nor a lowercase scheme string is classified as not
spam, and `spam_filter` attempts no moderation call at all. -/
theorem spec_c3_clean_text_no_action (cfg : Config) (msg : Message)
    (dOk nOk fOk : Bool)
    (hk : ∀ w ∈ BANNED_KEYWORDS, strIn w (pyLower (pyOrElse msg.text "")) = false)
    (h1 : strIn "http://" (pyOrElse msg.text "") = false)
    (h2 : strIn "https://" (pyOrElse msg.text "") = false) :
    is_spam (pyOrElse msg.text "") = false ∧
    spam_filter cfg msg dOk nOk fOk = ([], false) := by
  have hspam := is_spam_eq_false (pyOrElse msg.text "") hk h1 h2
  refine ⟨hspam, ?_⟩
  unfold spam_filter
  simp [hspam]

/-- Witness for C3 at the concrete text "see more at www.example.com". -/
theorem spec_c3_clean_text_no_action_witness :
    ((∀ w ∈ BANNED_KEYWORDS,
        strIn w (pyLower (pyOrElse (some "see more at www.example.com") "")) = false) ∧
      strIn "http://" (pyOrElse (some "see more at www.example.com") "") = false ∧
      strIn "https://" (pyOrElse (some "see more at www.example.com") "") = false) ∧
    (is_spam (pyOrElse (some "see more at www.example.com") "") = false ∧
      spam_filter
        { botToken := "123:ABC", adminUsername := some "admin",
          supportLink := some "https://t.me/sup", adminChatId := 99,
          webhookUrl := some "https://bot.example" }
        { text := some "see more at www.example.com", username := some "bob",
          first_name := "Bob", chatId := 5 }
        true true true = ([], false)) :=
  ⟨⟨by decide, by decide, by decide⟩,
    spec_c3_clean_text_no_action
      { botToken := "123:ABC", adminUsername := some "admin",
        supportLink := some "https://t.me/sup", adminChatId := 99,
        webhookUrl := some "https://bot.example" }
      { text := some "see more at www.example.com", username := some "bob",
        first_name := "Bob", chatId := 5 }
      true true true (by decide) (by decide) (by decide)⟩

/-- C4: on a positive verdict, `spam_filter` attempts the delete+notice step
(its first call, the delete, is always made) and the admin-forward step,
whatever faults are injected into any of the three platform calls, and no
exception escapes the handler. -/
theorem spec_c4_both_steps_attempted (cfg : Config) (msg : Message)
    (deleteOk noticeOk forwardOk : Bool)
    (hspam : is_spam (pyOrElse msg.text "") = true) :
    ModCall.deleteMsg ∈ (spam_filter cfg msg deleteOk noticeOk forwardOk).1 ∧
    ModCall.adminForward cfg.adminChatId (forwardText msg (pyOrElse msg.text ""))
      ∈ (spam_filter cfg msg deleteOk noticeOk forwardOk).1 ∧
    (spam_filter cfg msg deleteOk noticeOk forwardOk).2 = false := by
  cases deleteOk <;> simp [spam_filter, hspam]

/-- Witness for C4: a spam message ("free airdrop inside") with faults
injected into all three platform calls. -/
theorem spec_c4_both_steps_attempted_witness :
    is_spam (pyOrElse (some "free airdrop inside") "") = true ∧
    (ModCall.deleteMsg ∈
        (spam_filter
          { botToken := "123:ABC", adminUsername := some "admin",
            supportLink := some "https://t.me/sup", adminChatId := 99,
            webhookUrl := some "https://bot.example" }
          { text := some "free airdrop inside", username := some "eve",
            first_name := "Eve", chatId := 5 }
          false false false).1 ∧
      ModCall.adminForward 99
          (forwardText
            { text := some "free airdrop inside", username := some "eve",
              first_name := "Eve", chatId := 5 }
            (pyOrElse (some "free airdrop inside") ""))
        ∈ (spam_filter
          { botToken := "123:ABC", adminUsername := some "admin",
            supportLink := some "https://t.me/sup", adminChatId := 99,
            webhookUrl := some "https://bot.example" }
          { text := some "free airdrop inside", username := some "eve",
            first_name := "Eve", chatId := 5 }
          false false false).1 ∧
      (spam_filter
          { botToken := "123:ABC", adminUsername := some "admin",
            supportLink := some "https://t.me/sup", adminChatId := 99,
            webhookUrl := some "https://bot.example" }
          { text := some "free airdrop inside", username := some "eve",
            first_name := "Eve", chatId := 5 }
          false false false).2 = false) :=
  ⟨by decide,
    spec_c4_both_steps_attempted
      { botToken := "123:ABC", adminUsername := some "admin",
        supportLink := some "https://t.me/sup", adminChatId := 99,
        webhookUrl := some "https://bot.example" }
      { text := some "free airdrop inside", username := some "eve",
        first_name := "Eve", chatId := 5 }
      false false false (by decide)⟩

/-- C9: an event without message text substitutes the empty string, which is
not spam, so `spam_filter` performs no moderation call and raises nothing. -/
theorem spec_c9_absent_text_no_action (cfg : Config) (msg : Message)
    (dOk nOk fOk : Bool) (h : msg.text = none) :
    spam_filter cfg msg dOk nOk fOk = ([], false) := by
  unfold spam_filter
  rw [h]
  have hspam : is_spam (pyOrElse none "") = false := by decide
  simp [hspam]

/-- Witness for C9 at a concrete message carrying no text. -/
theorem spec_c9_absent_text_no_action_witness :
    (({ text := none, username := some "bob", first_name := "Bob",
        chatId := 5 } : Message).text = none) ∧
    spam_filter
      { botToken := "123:ABC", adminUsername := some "admin",
        supportLink := some "https://t.me/sup", adminChatId := 99,
        webhookUrl := some "https://bot.example" }
      { text := none, username := some "bob", first_name := "Bob", chatId := 5 }
      true false true = ([], false) :=
  ⟨rfl,
    spec_c9_absent_text_no_action
      { botToken := "123:ABC", adminUsername := some "admin",
        supportLink := some "https://t.me/sup", adminChatId := 99,
        webhookUrl := some "https://bot.example" }
      { text := none, username := some "bob", first_name := "Bob", chatId := 5 }
      true false true rfl⟩

/-- Shared helper: when the keyboard builds and every send from index `i` on
succeeds, the welcome loop greets each remaining member in order. -/
theorem welcomeGo_all_ok (cfg : Config) (u : String) (sendOk : Nat → Bool)
    (hu : cfg.adminUsername = some u) (hok : ∀ i, sendOk i = true) :
    ∀ (ms : List Member) (i : Nat),
      welcomeGo cfg sendOk i ms =
        (ms.map (fun m =>
          { text := greetingText m.first_name,
            markup := mainKb u cfg.supportLink }), false) := by
  intro ms
  induction ms with
  | nil => intro i; simp [welcomeGo]
  | cons m rest ih =>
    intro i
    unfold welcomeGo get_main_keyboard
    rw [hu]
    simp [hok i, ih (i + 1)]

/-- Shared helper: when the keyboard builds, every send before the failing
index succeeds and the send at that index fails, the welcome loop attempts
exactly the greetings up to and including the failing member and the
exception escapes. -/
theorem welcomeGo_fail_at (cfg : Config) (u : String) (sendOk : Nat → Bool)
    (hu : cfg.adminUsername = some u) :
    ∀ (pre : List Member) (i : Nat) (m : Member) (post : List Member),
      (∀ j, j < pre.length → sendOk (i + j) = true) →
      sendOk (i + pre.length) = false →
      welcomeGo cfg sendOk i (pre ++ m :: post) =
        ((pre ++ [m]).map (fun x =>
          { text := greetingText x.first_name,
            markup := mainKb u cfg.supportLink }), true) := by
  intro pre
  induction pre with
  | nil =>
    intro i m post _ hfail
    have hfail0 : sendOk i = false := by simpa using hfail
    unfold welcomeGo get_main_keyboard
    rw [hu]
    simp [hfail0]
  | cons p pre ih =>
    intro i m post hok hfail
    have hp : sendOk i = true := by
      have := hok 0 (by simp)
      simpa using this
    have hok2 : ∀ j, j < pre.length → sendOk (i + 1 + j) = true := by
      intro j hj
      have := hok (j + 1) (by simpa using Nat.succ_lt_succ hj)
      rwa [show i + (j + 1) = i + 1 + j by omega] at this
    have hfail2 : sendOk (i + 1 + pre.length) = false := by
      have h : i + 1 + pre.length = i + (p :: pre).length := by
        simp [List.length_cons]
        omega
      rw [h]
      exact hfail
    have := ih (i + 1) m post hok2 hfail2
    unfold welcomeGo get_main_keyboard
    rw [hu]
    simp [hp, this]

/-- C8: with valid configuration and no send failure, a new-member event with
N joined members produces exactly N greeting sends, one per member in input
order, each personalized with that member's first name and carrying the
two-link menu. -/
theorem spec_c8_one_greeting_per_member (cfg : Config) (u : String)
    (members : List Member) (sendOk : Nat → Bool)
    (hu : cfg.adminUsername = some u) (hok : ∀ i, sendOk i = true) :
    welcome_new_member cfg members sendOk =
      (members.map (fun m =>
        { text := greetingText m.first_name,
          markup := mainKb u cfg.supportLink }), false) := by
  unfold welcome_new_member
  exact welcomeGo_all_ok cfg u sendOk hu hok members 0

/-- Witness for C8 at the concrete member list [A, B]. -/
theorem spec_c8_one_greeting_per_member_witness :
    (({ botToken := "123:ABC", adminUsername := some "admin",
        supportLink := some "https://t.me/sup", adminChatId := 99,
        webhookUrl := some "https://bot.example" } : Config).adminUsername =
        some "admin" ∧
      ∀ i : Nat, (fun _ => true) i = true) ∧
    welcome_new_member
      { botToken := "123:ABC", adminUsername := some "admin",
        supportLink := some "https://t.me/sup", adminChatId := 99,
        webhookUrl := some "https://bot.example" }
      [{ username := some "a", first_name := "A" },
        { username := some "b", first_name := "B" }]
      (fun _ => true) =
      ([{ text := greetingText "A",
          markup := mainKb "admin" (some "https://t.me/sup") },
        { text := greetingText "B",
          markup := mainKb "admin" (some "https://t.me/sup") }], false) :=
  ⟨⟨rfl, fun _ => rfl⟩,
    spec_c8_one_greeting_per_member
      { botToken := "123:ABC", adminUsername := some "admin",
        supportLink := some "https://t.me/sup", adminChatId := 99,
        webhookUrl := some "https://bot.example" }
      "admin"
      [{ username := some "a", first_name := "A" },
        { username := some "b", first_name := "B" }]
      (fun _ => true) rfl (fun _ => rfl)⟩

/-- C6 counterexample: with members [A, B] and a fault injected into the
first greeting send, only A's greeting is attempted — B's greeting is never
attempted, because the loop has no per-member failure isolation and the
exception escapes the handler. -/
theorem spec_c6_counterexample :
    welcome_new_member
      { botToken := "123:ABC", adminUsername := some "admin",
        supportLink := some "https://t.me/sup", adminChatId := 99,
        webhookUrl := some "https://bot.example" }
      [{ username := some "a", first_name := "A" },
        { username := some "b", first_name := "B" }]
      (fun i => decide (i ≠ 0)) =
      ([{ text := greetingText "A",
          markup := mainKb "admin" (some "https://t.me/sup") }], true) := by
  decide

/-- C6 amended: greeting sends are not isolated — when every send before
index i succeeds and the send for the member at index i fails, the handler
attempts exactly the greetings for members 0..i (the failing send included)
and the exception propagates out of the loop, so members after index i are
never greeted. -/
theorem spec_c6_failed_send_aborts_loop (cfg : Config) (u : String)
    (pre : List Member) (m : Member) (post : List Member) (sendOk : Nat → Bool)
    (hu : cfg.adminUsername = some u)
    (hok : ∀ j, j < pre.length → sendOk j = true)
    (hfail : sendOk pre.length = false) :
    welcome_new_member cfg (pre ++ m :: post) sendOk =
      ((pre ++ [m]).map (fun x =>
        { text := greetingText x.first_name,
          markup := mainKb u cfg.supportLink }), true) := by
  unfold welcome_new_member
  have h0 : ∀ j, j < pre.length → sendOk (0 + j) = true := by
    intro j hj; rw [Nat.zero_add]; exact hok j hj
  have h1 : sendOk (0 + pre.length) = false := by rwa [Nat.zero_add]
  exact welcomeGo_fail_at cfg u sendOk hu pre 0 m post h0 h1

/-- Witness for the amended C6: member A's send succeeds, B's fails, C is
never greeted. -/
theorem spec_c6_failed_send_aborts_loop_witness :
    (({ botToken := "123:ABC", adminUsername := some "admin",
        supportLink := some "https://t.me/sup", adminChatId := 99,
        webhookUrl := some "https://bot.example" } : Config).adminUsername =
        some "admin" ∧
      (∀ j : Nat, j < 1 → (fun i : Nat => decide (i = 0)) j = true) ∧
      (fun i : Nat => decide (i = 0)) 1 = false) ∧
    welcome_new_member
      { botToken := "123:ABC", adminUsername := some "admin",
        supportLink := some "https://t.me/sup", adminChatId := 99,
        webhookUrl := some "https://bot.example" }
      ([{ username := some "a", first_name := "A" }] ++
        { username := some "b", first_name := "B" } ::
          [{ username := some "c", first_name := "C" }])
      (fun i => decide (i = 0)) =
      ((([{ username := some "a", first_name := "A" }] ++
          [{ username := some "b", first_name := "B" }] : List Member)).map (fun x =>
        ({ text := greetingText x.first_name,
           markup := mainKb "admin" (some "https://t.me/sup") } : Send)), true) :=
  ⟨⟨rfl, by decide, by decide⟩,
    spec_c6_failed_send_aborts_loop
      { botToken := "123:ABC", adminUsername := some "admin",
        supportLink := some "https://t.me/sup", adminChatId := 99,
        webhookUrl := some "https://bot.example" }
      "admin"
      [{ username := some "a", first_name := "A" }]
      { username := some "b", first_name := "B" }
      [{ username := some "c", first_name := "C" }]
      (fun i => decide (i = 0)) rfl (by decide) (by decide)⟩

/-- C7 counterexample: with `ADMIN_USERNAME` unset (a required configuration
value) and every other variable valid, module initialization succeeds, so the
process goes on to serve requests; the missing value is only touched later,
inside `get_main_keyboard`, when a handler first builds the menu. -/
theorem spec_c7_counterexample :
    startup
      { bot_token := some "123:ABC", admin_username := none,
        support_link := some "https://t.me/sup", admin_chat_id := some "42",
        webhook_url := some "https://bot.example" } =
      Except.ok
        { botToken := "123:ABC", adminUsername := none,
          supportLink := some "https://t.me/sup", adminChatId := 42,
          webhookUrl := some "https://bot.example" } := by
  rfl

/-- C7 amended: only `BOT_TOKEN` and `ADMIN_CHAT_ID` are validated before
serving: an unset `ADMIN_CHAT_ID` raises TypeError at startup, a non-integer
one raises ValueError at startup, and an unset `BOT_TOKEN` prevents the
application from being built; an unset `ADMIN_USERNAME` does not stop
startup and instead raises AttributeError inside `get_main_keyboard` when a
handler runs. -/
theorem spec_c7_partial_startup_validation (env : Env) (cfg : Config) :
    (env.admin_chat_id = none →
      startup env = Except.error StartupError.typeError) ∧
    (∀ s, env.admin_chat_id = some s → pyInt? s = none →
      startup env = Except.error StartupError.valueError) ∧
    (env.bot_token = none → ∀ c, startup env ≠ Except.ok c) ∧
    (cfg.adminUsername = none →
      get_main_keyboard cfg = Except.error PyError.attributeError) := by
  refine ⟨?_, ?_, ?_, ?_⟩
  · intro h
    simp [startup, h]
  · intro s hs hparse
    simp [startup, hs, hparse]
  · intro h c
    cases henv : env.admin_chat_id with
    | none => simp [startup, henv]
    | some s =>
      cases hp : pyInt? s with
      | none => simp [startup, henv, hp]
      | some n => simp [startup, henv, hp, h]
  · intro h
    simp [get_main_keyboard, h]

/-- Witness for the amended C7: an unset `ADMIN_CHAT_ID` is fatal at
startup, and a configuration without `ADMIN_USERNAME` makes the menu builder
raise. -/
theorem spec_c7_partial_startup_validation_witness :
    startup
      { bot_token := some "123:ABC", admin_username := some "admin",
        support_link := some "https://t.me/sup", admin_chat_id := none,
        webhook_url := some "https://bot.example" } =
      Except.error StartupError.typeError ∧
    get_main_keyboard
      { botToken := "123:ABC", adminUsername := none,
        supportLink := some "https://t.me/sup", adminChatId := 42,
        webhookUrl := some "https://bot.example" } =
      Except.error PyError.attributeError :=
  ⟨(spec_c7_partial_startup_validation
      { bot_token := some "123:ABC", admin_username := some "admin",
        support_link := some "https://t.me/sup", admin_chat_id := none,
        webhook_url := some "https://bot.example" }
      { botToken := "123:ABC", adminUsername := none,
        supportLink := some "https://t.me/sup", adminChatId := 42,
        webhookUrl := some "https://bot.example" }).1 rfl,
    (spec_c7_partial_startup_validation
      { bot_token := some "123:ABC", admin_username := some "admin",
        support_link := some "https://t.me/sup", admin_chat_id := none,
        webhook_url := some "https://bot.example" }
      { botToken := "123:ABC", adminUsername := none,
        supportLink := some "https://t.me/sup", adminChatId := 42,
        webhookUrl := some "https://bot.example" }).2.2.2 rfl⟩

/-- C5 counterexample: a request body that fails to parse makes the route
body raise before the acknowledgement line is reached; Flask turns the
uncaught BadRequest into a 400 error response whose body is not "ok", and
the queue is left untouched. -/
theorem spec_c5_counterexample :
    webhookResponse (Except.error ParseError.badRequest)
        { pending := [] } =
      (400, "Bad Request", ({ pending := [] } : QueueState)) := by
  decide

/-- C5 amended: for every request whose body parses into an update, the
endpoint returns status 200 with the fixed body "ok", independently of
handler processing — the update is only appended to the pending queue, no
handler runs before the response, and the response is the same whatever the
queue already holds. -/
theorem spec_c5_ack_decoupled_from_processing (u : TgUpdate) (q : QueueState) :
    webhookResponse (Except.ok u) q =
      (200, "ok", ({ pending := q.pending ++ [u] } : QueueState)) := by
  rfl

end CryptoSwapBot
